import Mathlib

/-!
Verification development for the SuperStore KPI dashboard script (`app.py`).

The script is a single linear pipeline over an in-memory table of
transaction records: a chain of single-select categorical filters
(region, state, category, sub-category), a date-range filter, a derived
trailing comparison window, KPI aggregation (sales, quantity, profit,
margin rate), per-day and per-product groupings, and a rendering layer.

The embedding below follows that pipeline.  A dataframe is a `List Row`;
boolean masking is `List.filter`; `groupby(...).agg(sum)` is `groupAgg`;
pandas `sort_values` (an unstable comparison sort followed by `head(10)`)
is modelled by `List.insertionSort` under the descending order on the
selected KPI, which is a faithful model because every claim about the
sorted output concerns only the multiset of rows and the ordering of KPI
values.  Currency and quantity values are modelled as `Rat`; order dates
as `Int` day numbers.  `float('inf')` in `pct_change` is modelled by a
dedicated constructor of an option-like result type.
-/

/-- A transaction record: one row of the loaded spreadsheet, with the
columns the script reads.  Order dates are day numbers (`Int`); money
and quantities are exact rationals. -/
structure Row where
  region : String
  state : String
  category : String
  subCategory : String
  productName : String
  orderDate : Int
  sales : Rat
  quantity : Rat
  profit : Rat
deriving DecidableEq, Repr

/-- Region filter (app.py lines 27-30): mask `Region == selected` unless
the selection is `"All"`. -/
def df_filtered_region (df : List Row) (sel : String) : List Row :=
  if sel ≠ "All" then df.filter (fun r => decide (r.region = sel)) else df

/-- State filter (app.py lines 35-38), applied to the region-filtered frame. -/
def df_filtered_state (df : List Row) (sel : String) : List Row :=
  if sel ≠ "All" then df.filter (fun r => decide (r.state = sel)) else df

/-- Category filter (app.py lines 43-46), applied to the state-filtered frame. -/
def df_filtered_category (df : List Row) (sel : String) : List Row :=
  if sel ≠ "All" then df.filter (fun r => decide (r.category = sel)) else df

/-- The fully categorically filtered frame (app.py lines 51-53): the
sub-category mask applied after region, state and category.  The
`.copy()` in the source is the identity on values. -/
def df_filtered (df : List Row) (sr ss sc ssc : String) : List Row :=
  let d := df_filtered_category (df_filtered_state (df_filtered_region df sr) ss) sc
  if ssc ≠ "All" then d.filter (fun r => decide (r.subCategory = ssc)) else d

/-- Inclusive date-range mask used for both the current and the previous
period (app.py lines 70-73 and 79-82). -/
def dateInRange (f t : Int) (r : Row) : Bool :=
  decide (f ≤ r.orderDate) && decide (r.orderDate ≤ t)

/-- The current-period frame (app.py lines 70-73): the categorically
filtered rows whose order date lies in `[from_date, to_date]`. -/
def df_current (df : List Row) (sr ss sc ssc : String) (f t : Int) : List Row :=
  (df_filtered df sr ss sc ssc).filter (dateInRange f t)

/-- Day count of the selected range (app.py line 76):
`(to_date - from_date).days + 1`. -/
def selected_days (f t : Int) : Int := (t - f) + 1

/-- Start of the trailing comparison window (app.py line 77). -/
def prev_from_date (f t : Int) : Int := f - selected_days f t

/-- End of the trailing comparison window (app.py line 78). -/
def prev_to_date (f : Int) : Int := f - 1

/-- The previous-period frame (app.py lines 79-82): the categorically
filtered rows (not the date-filtered ones) whose order date lies in the
trailing window. -/
def df_previous (df : List Row) (sr ss sc ssc : String) (f t : Int) : List Row :=
  (df_filtered df sr ss sc ssc).filter (dateInRange (prev_from_date f t) (prev_to_date f))

/-- Column sum over a frame, the model of `df[col].sum()`. -/
def sumBy (f : Row → Rat) (df : List Row) : Rat := (df.map f).sum

/-- KPI tile value for sales (app.py lines 147-153): `0` on an empty
current frame, otherwise the column sum. -/
def total_sales (df : List Row) : Rat := if df.isEmpty then 0 else sumBy Row.sales df

/-- KPI tile value for quantity (app.py lines 147-154). -/
def total_quantity (df : List Row) : Rat := if df.isEmpty then 0 else sumBy Row.quantity df

/-- KPI tile value for profit (app.py lines 147-155). -/
def total_profit (df : List Row) : Rat := if df.isEmpty then 0 else sumBy Row.profit df

/-- KPI tile value for the margin rate (app.py lines 147-156):
`profit / sales` guarded to `0` when the sales total is `0`, and `0` on
an empty current frame. -/
def margin_rate (df : List Row) : Rat :=
  if df.isEmpty then 0
  else if sumBy Row.sales df ≠ 0 then sumBy Row.profit df / sumBy Row.sales df else 0

/-- Result of `pct_change` (app.py lines 103-104): either a finite
percentage or the `float('inf')` sentinel returned when the previous
value is `0`. -/
inductive PctValue where
  | val (q : Rat)
  | posInf
deriving DecidableEq, Repr

/-- Percentage change (app.py lines 103-104):
`(current - previous) / previous * 100` when `previous != 0`, else
positive infinity. -/
def pct_change (current previous : Rat) : PctValue :=
  if previous ≠ 0 then PctValue.val ((current - previous) / previous * 100)
  else PctValue.posInf

/-- One row of a `groupby(...).agg(sum)` result with the derived
`Margin Rate` column. -/
structure AggRow (α : Type) where
  key : α
  sales : Rat
  quantity : Rat
  profit : Rat
  marginRate : Rat
deriving DecidableEq, Repr

/-- Model of `df.groupby(key).agg(sum).reset_index()` followed by
`grouped["Margin Rate"] = grouped["Profit"] / grouped["Sales"].replace(0, 1)`
(app.py lines 214-219 and 221-226): one aggregate row per distinct key,
with the margin rate dividing by `1` exactly when the group's sales sum
is `0`. -/
def groupAgg {α : Type} [DecidableEq α] (key : Row → α) (df : List Row) : List (AggRow α) :=
  ((df.map key).dedup).map (fun k =>
    let rows := df.filter (fun r => decide (key r = k))
    let s := sumBy Row.sales rows
    { key := k
      sales := s
      quantity := sumBy Row.quantity rows
      profit := sumBy Row.profit rows
      marginRate := sumBy Row.profit rows / (if s = 0 then 1 else s) })

/-- The per-day aggregation (app.py lines 214-219). -/
def daily_grouped (df : List Row) : List (AggRow Int) := groupAgg Row.orderDate df

/-- The KPI selected by the radio widget (app.py line 208). -/
inductive KPI where
  | sales
  | quantity
  | profit
  | marginRate
deriving DecidableEq, Repr

/-- The column of an aggregate row named by a KPI choice. -/
def kpiValue {α : Type} : KPI → AggRow α → Rat
  | KPI.sales, a => a.sales
  | KPI.quantity, a => a.quantity
  | KPI.profit, a => a.profit
  | KPI.marginRate, a => a.marginRate

/-- Descending order on the selected KPI, as used by
`sort_values(by=selected_kpi, ascending=False)` (app.py line 228). -/
def kpiDescRel (k : KPI) : AggRow String → AggRow String → Prop :=
  fun a b => kpiValue k b ≤ kpiValue k a

instance (k : KPI) : DecidableRel (kpiDescRel k) :=
  fun a b => inferInstanceAs (Decidable (kpiValue k b ≤ kpiValue k a))

/-- The per-product aggregation after the in-place descending sort on the
selected KPI (app.py lines 221-228). -/
def product_grouped (k : KPI) (df : List Row) : List (AggRow String) :=
  List.insertionSort (kpiDescRel k) (groupAgg Row.productName df)

/-- `product_grouped.head(10)` (app.py line 229). -/
def top_10 (k : KPI) (df : List Row) : List (AggRow String) :=
  (product_grouped k df).take 10

/-- The visible output widgets the script can emit.  The breakdown and
sunburst constructors name chart kinds the spec's overview sentence
mentions; they let the development state which charts this script does
and does not render. -/
inductive RenderItem where
  | noticeNoData
  | trendMetrics
  | kpiTiles
  | warningNoData
  | timeSeriesChart
  | topProductsChart
  | regionalBreakdown
  | stateBreakdown
  | categoryBreakdown
  | sunburstChart
deriving DecidableEq, Repr

/-- The sequence of widgets the script renders for a given current-period
frame, in script order (app.py lines 88-116, 158-199, 204-268): the
Performance Trends section shows a no-data notice or the trend metrics;
the four KPI tiles always render; the chart section shows a warning on an
empty frame and otherwise the time-series chart and the top-10 products
bar chart. -/
def render (dfCurrent : List Row) : List RenderItem :=
  (if dfCurrent.isEmpty then [RenderItem.noticeNoData] else [RenderItem.trendMetrics]) ++
  [RenderItem.kpiTiles] ++
  (if dfCurrent.isEmpty then [RenderItem.warningNoData]
   else [RenderItem.timeSeriesChart, RenderItem.topProductsChart])

/-- The frame whose order dates bound the date widgets (app.py lines
56-61): the full original frame when the categorical filters left
nothing, otherwise the filtered frame. -/
def widget_date_source (df : List Row) (sr ss sc ssc : String) : List Row :=
  if (df_filtered df sr ss sc ssc).isEmpty then df else df_filtered df sr ss sc ssc

/-- `min_date` (app.py lines 56-61), also the default of the From-Date
widget (app.py line 63). -/
def min_date (df : List Row) (sr ss sc ssc : String) : Option Int :=
  ((widget_date_source df sr ss sc ssc).map Row.orderDate).min?

/-- `max_date` (app.py lines 56-61), also the default of the To-Date
widget (app.py line 64). -/
def max_date (df : List Row) (sr ss sc ssc : String) : Option Int :=
  ((widget_date_source df sr ss sc ssc).map Row.orderDate).max?

/-- The script's dataframe variables, threaded as explicit state: each
pandas operation in the script either builds a new frame (masking,
`copy()`, `groupby`) or updates exactly one of these fields in place
(`sort_values(..., inplace=True)` on `product_grouped`). -/
structure ScriptState where
  df_original : List Row
  df_filtered : List Row
  df_current : List Row
  df_previous : List Row
  daily_grouped : List (AggRow Int)
  product_grouped : List (AggRow String)
  top_10 : List (AggRow String)
  rendered : List RenderItem

/-- State after `load_data` (app.py lines 10-19): only the source frame
is populated. -/
def loadPhase (df0 : List Row) : ScriptState :=
  { df_original := df0
    df_filtered := []
    df_current := []
    df_previous := []
    daily_grouped := []
    product_grouped := []
    top_10 := []
    rendered := [] }

/-- State after the sidebar filters and the period windows (app.py lines
25-82): the derived frames are built from `df_original` by masking. -/
def filterPhase (sr ss sc ssc : String) (f t : Int) (s : ScriptState) : ScriptState :=
  { s with
    df_filtered := df_filtered s.df_original sr ss sc ssc
    df_current := df_current s.df_original sr ss sc ssc f t
    df_previous := df_previous s.df_original sr ss sc ssc f t }

/-- State after the chart section (app.py lines 204-268): on a non-empty
current frame the groupings are built, `product_grouped` is sorted in
place, `top_10` is taken, and the widgets are rendered. -/
def chartPhase (k : KPI) (s : ScriptState) : ScriptState :=
  if s.df_current.isEmpty then
    { s with rendered := render s.df_current }
  else
    { s with
      daily_grouped := daily_grouped s.df_current
      product_grouped := product_grouped k s.df_current
      top_10 := top_10 k s.df_current
      rendered := render s.df_current }

/-- One full run of the script for a given widget configuration. -/
def runScript (df0 : List Row) (sr ss sc ssc : String) (f t : Int) (k : KPI) : ScriptState :=
  chartPhase k (filterPhase sr ss sc ssc f t (loadPhase df0))

/-- Spec-side row predicate for the filter chain, written from the
claim's wording: a row is kept exactly when it equals each non-All
categorical selection and its order date lies between the endpoints
inclusively. -/
def matchesSelections (sr ss sc ssc : String) (f t : Int) (r : Row) : Prop :=
  (sr = "All" ∨ r.region = sr) ∧
  (ss = "All" ∨ r.state = ss) ∧
  (sc = "All" ∨ r.category = sc) ∧
  (ssc = "All" ∨ r.subCategory = ssc) ∧
  f ≤ r.orderDate ∧ r.orderDate ≤ t

instance (sr ss sc ssc : String) (f t : Int) (r : Row) :
    Decidable (matchesSelections sr ss sc ssc f t r) := by
  unfold matchesSelections
  infer_instance

/-- A one-row dataset whose single transaction has zero sales and
positive profit, as can arise from a fully discounted line item. -/
def exRowZeroSales : Row :=
  { region := "West"
    state := "California"
    category := "Furniture"
    subCategory := "Tables"
    productName := "Freebie Table"
    orderDate := 0
    sales := 0
    quantity := 1
    profit := 7 }

/-- An ordinary transaction row used as a concrete input. -/
def exRow : Row :=
  { region := "East"
    state := "New York"
    category := "Technology"
    subCategory := "Phones"
    productName := "Phone A"
    orderDate := 5
    sales := 100
    quantity := 2
    profit := 30 }

/-- Claim C7: the chart-section warning (and the trends-section notice)
is shown exactly when the current-period frame is empty, and the trend
metrics and both charts are shown exactly when it is non-empty. -/
theorem warning_iff_empty_current (df : List Row) :
    (RenderItem.warningNoData ∈ render df ↔ df = []) ∧
    (RenderItem.noticeNoData ∈ render df ↔ df = []) ∧
    (RenderItem.trendMetrics ∈ render df ↔ df ≠ []) ∧
    (RenderItem.timeSeriesChart ∈ render df ↔ df ≠ []) ∧
    (RenderItem.topProductsChart ∈ render df ↔ df ≠ []) := by
  cases df <;> simp [render]

/-- Claim C8: a full script run leaves the loaded source frame exactly as
it was: every masking step builds a new frame and the one in-place
operation (`sort_values` on `product_grouped`) touches only that field. -/
theorem run_preserves_df_original (df0 : List Row) (sr ss sc ssc : String)
    (f t : Int) (k : KPI) :
    (runScript df0 sr ss sc ssc f t k).df_original = df0 := by
  unfold runScript chartPhase filterPhase loadPhase
  split <;> rfl

/-- Claim C10: the percentage change is `(current - previous) / previous
* 100` when the previous value is nonzero and the infinity sentinel when
it is `0`, including at `current = 0`, where it is neither `0` nor any
finite value. -/
theorem pct_change_spec (c p : Rat) :
    pct_change c p =
      (if p = 0 then PctValue.posInf else PctValue.val ((c - p) / p * 100)) ∧
    pct_change c 0 = PctValue.posInf ∧
    pct_change 0 0 = PctValue.posInf ∧
    pct_change 0 0 ≠ PctValue.val 0 := by
  refine ⟨?_, ?_, by decide, by decide⟩
  · unfold pct_change
    by_cases hp : p = 0 <;> simp [hp]
  · simp [pct_change]

/-- Claim C4 counterexample: on a non-empty current-period frame the
script renders neither a regional, state or category breakdown chart nor
a sunburst chart. -/
theorem render_missing_charts_counterexample :
    ([exRow] : List Row) ≠ [] ∧
    RenderItem.sunburstChart ∉ render [exRow] ∧
    RenderItem.regionalBreakdown ∉ render [exRow] ∧
    RenderItem.stateBreakdown ∉ render [exRow] ∧
    RenderItem.categoryBreakdown ∉ render [exRow] := by
  decide

/-- Claim C4 amended: for every non-empty current-period frame the
rendered output includes the time-series chart and the top-10 products
chart, and never a regional, state or category breakdown or a sunburst
chart. -/
theorem render_charts_on_nonempty (df : List Row) (h : df ≠ []) :
    RenderItem.timeSeriesChart ∈ render df ∧
    RenderItem.topProductsChart ∈ render df ∧
    RenderItem.sunburstChart ∉ render df ∧
    RenderItem.regionalBreakdown ∉ render df ∧
    RenderItem.stateBreakdown ∉ render df ∧
    RenderItem.categoryBreakdown ∉ render df := by
  have hE : df.isEmpty = false := List.isEmpty_eq_false.mpr h
  simp [render, hE]

/-- Claim C4 amended, witness at a concrete one-row frame. -/
theorem render_charts_on_nonempty_witness :
    ([exRow] : List Row) ≠ [] ∧
    (RenderItem.timeSeriesChart ∈ render [exRow] ∧
     RenderItem.topProductsChart ∈ render [exRow] ∧
     RenderItem.sunburstChart ∉ render [exRow] ∧
     RenderItem.regionalBreakdown ∉ render [exRow] ∧
     RenderItem.stateBreakdown ∉ render [exRow] ∧
     RenderItem.categoryBreakdown ∉ render [exRow]) :=
  ⟨by decide, render_charts_on_nonempty [exRow] (by decide)⟩

/-- Claim C5: each KPI tile value equals the column sum of the current
frame (hence `0` on the empty frame), and the margin tile is the guarded
quotient of the profit and sales tiles. -/
theorem kpi_tiles_spec (df : List Row) :
    total_sales df = sumBy Row.sales df ∧
    total_quantity df = sumBy Row.quantity df ∧
    total_profit df = sumBy Row.profit df ∧
    margin_rate df =
      (if total_sales df = 0 then 0 else total_profit df / total_sales df) ∧
    (total_sales [] = 0 ∧ total_quantity [] = 0 ∧ total_profit [] = 0 ∧
     margin_rate [] = 0) := by
  refine ⟨?_, ?_, ?_, ?_, by decide, by decide, by decide, by decide⟩
  · cases df <;> simp [total_sales, sumBy]
  · cases df <;> simp [total_quantity, sumBy]
  · cases df <;> simp [total_profit, sumBy]
  · cases df with
    | nil => simp [margin_rate, total_sales]
    | cons a l =>
      simp only [margin_rate, total_sales, total_profit, List.isEmpty_cons,
        if_false, Bool.false_eq_true]
      by_cases hs : sumBy Row.sales (a :: l) = 0 <;> simp [hs]

theorem groupAgg_margin_eq {α : Type} [DecidableEq α] (key : Row → α) (df : List Row) :
    (groupAgg key df).map AggRow.marginRate =
      (groupAgg key df).map (fun a => if a.sales = 0 then a.profit else a.profit / a.sales) := by
  unfold groupAgg
  simp only [List.map_map]
  apply List.map_congr_left
  intro k _
  simp only [Function.comp_apply]
  by_cases hs :
      sumBy Row.sales (df.filter (fun r => decide (key r = k))) = 0 <;> simp [hs]

/-- Claim C1 counterexample: a one-row current frame whose single
transaction has sales `0` and profit `7` gives the per-day grouping a
sales total of `0` but a derived margin rate of `7` (the profit divided
by the substituted divisor `1`), not `0`. -/
theorem grouped_margin_nonzero_on_zero_sales :
    (daily_grouped [exRowZeroSales]).map (fun a => (a.sales, a.marginRate)) =
      [((0 : Rat), (7 : Rat))] ∧
    ((7 : Rat) ≠ 0) := by
  constructor
  · simp [daily_grouped, groupAgg, sumBy, exRowZeroSales]
  · norm_num

/-- Claim C1 amended: the KPI-tile margin rate is profit over sales and
`0` when the sales total is `0`; the per-day and per-product groupings
instead derive profit over sales when the group's sales total is nonzero
but the group's raw profit (a division by the substituted `1`) when the
group's sales total is `0`. -/
theorem margin_rate_policy (df : List Row) :
    margin_rate df =
      (if total_sales df = 0 then 0 else total_profit df / total_sales df) ∧
    (daily_grouped df).map AggRow.marginRate =
      (daily_grouped df).map
        (fun a => if a.sales = 0 then a.profit else a.profit / a.sales) ∧
    (groupAgg Row.productName df).map AggRow.marginRate =
      (groupAgg Row.productName df).map
        (fun a => if a.sales = 0 then a.profit else a.profit / a.sales) := by
  refine ⟨?_, groupAgg_margin_eq Row.orderDate df, groupAgg_margin_eq Row.productName df⟩
  cases df with
  | nil => simp [margin_rate, total_sales]
  | cons a l =>
    simp only [margin_rate, total_sales, total_profit, List.isEmpty_cons,
      Bool.false_eq_true, if_false]
    by_cases hs : sumBy Row.sales (a :: l) = 0 <;> simp [hs]

/-- Claim C2: the trailing comparison window starts `selected_days`
before the selected start, ends on the day immediately before it, spans
exactly as many days as the selected range `[f, t]`, and the
previous-period frame is the categorically filtered rows restricted to
that window. -/
theorem prev_window_spec (df : List Row) (sr ss sc ssc : String) (f t : Int)
    (h : f ≤ t) :
    selected_days f t = (t - f) + 1 ∧
    prev_from_date f t = f - selected_days f t ∧
    prev_to_date f = f - 1 ∧
    prev_to_date f + 1 = f ∧
    (Finset.Icc (prev_from_date f t) (prev_to_date f)).card =
      (Finset.Icc f t).card ∧
    df_previous df sr ss sc ssc f t =
      (df_filtered df sr ss sc ssc).filter
        (fun r => decide (prev_from_date f t ≤ r.orderDate ∧
          r.orderDate ≤ prev_to_date f)) := by
  refine ⟨rfl, rfl, rfl, by unfold prev_to_date; omega, ?_, ?_⟩
  · simp only [Int.card_Icc, prev_from_date, prev_to_date, selected_days]
    omega
  · unfold df_previous
    apply List.filter_congr
    intro r _
    simp [dateInRange, Bool.decide_and]

/-- Claim C2, witness at the concrete range `[0, 2]` on a one-row frame. -/
theorem prev_window_spec_witness :
    ((0 : Int) ≤ 2) ∧
    (selected_days 0 2 = (2 - 0) + 1 ∧
     prev_from_date 0 2 = 0 - selected_days 0 2 ∧
     prev_to_date 0 = 0 - 1 ∧
     prev_to_date 0 + 1 = 0 ∧
     (Finset.Icc (prev_from_date 0 2) (prev_to_date 0)).card =
       (Finset.Icc (0 : Int) 2).card ∧
     df_previous [exRow] "All" "All" "All" "All" 0 2 =
       (df_filtered [exRow] "All" "All" "All" "All").filter
         (fun r => decide (prev_from_date 0 2 ≤ r.orderDate ∧
           r.orderDate ≤ prev_to_date 0))) :=
  ⟨by decide, prev_window_spec [exRow] "All" "All" "All" "All" 0 2 (by decide)⟩

theorem filter_stage_eq (df : List Row) (sel : String) (get : Row → String) :
    (if sel ≠ "All" then df.filter (fun r => decide (get r = sel)) else df) =
      df.filter (fun r => decide (sel = "All" ∨ get r = sel)) := by
  by_cases h : sel = "All"
  · subst h
    rw [if_neg (by simp)]
    symm
    rw [List.filter_eq_self]
    intro a _
    simp
  · rw [if_pos h]
    apply List.filter_congr
    intro r _
    simp [h]

theorem df_filtered_region_eq (df : List Row) (sel : String) :
    df_filtered_region df sel =
      df.filter (fun r => decide (sel = "All" ∨ r.region = sel)) :=
  filter_stage_eq df sel Row.region

theorem df_filtered_state_eq (df : List Row) (sel : String) :
    df_filtered_state df sel =
      df.filter (fun r => decide (sel = "All" ∨ r.state = sel)) :=
  filter_stage_eq df sel Row.state

theorem df_filtered_category_eq (df : List Row) (sel : String) :
    df_filtered_category df sel =
      df.filter (fun r => decide (sel = "All" ∨ r.category = sel)) :=
  filter_stage_eq df sel Row.category

theorem df_filtered_eq (df : List Row) (sr ss sc ssc : String) :
    df_filtered df sr ss sc ssc =
      (((df.filter (fun r => decide (sr = "All" ∨ r.region = sr))).filter
          (fun r => decide (ss = "All" ∨ r.state = ss))).filter
          (fun r => decide (sc = "All" ∨ r.category = sc))).filter
          (fun r => decide (ssc = "All" ∨ r.subCategory = ssc)) := by
  have h4 :
      df_filtered df sr ss sc ssc =
        (df_filtered_category (df_filtered_state (df_filtered_region df sr) ss) sc).filter
          (fun r => decide (ssc = "All" ∨ r.subCategory = ssc)) :=
    filter_stage_eq _ ssc Row.subCategory
  rw [h4, df_filtered_category_eq, df_filtered_state_eq, df_filtered_region_eq]

/-- Claim C3: the successively masked current-period frame equals the
single filter of the original frame by the conjunction of the non-All
categorical selections and the inclusive date range. -/
theorem df_current_eq_conjunction (df : List Row) (sr ss sc ssc : String)
    (f t : Int) :
    df_current df sr ss sc ssc f t =
      df.filter (fun r => decide (matchesSelections sr ss sc ssc f t r)) := by
  unfold df_current
  rw [df_filtered_eq]
  simp only [List.filter_filter]
  apply List.filter_congr
  intro r _
  rw [Bool.eq_iff_iff]
  simp only [dateInRange, matchesSelections, Bool.and_eq_true, Bool.or_eq_true,
    decide_eq_true_eq]
  tauto

theorem product_grouped_sorted (k : KPI) (df : List Row) :
    List.Sorted (kpiDescRel k) (product_grouped k df) := by
  haveI : IsTotal (AggRow String) (kpiDescRel k) :=
    ⟨fun a b => le_total (kpiValue k b) (kpiValue k a)⟩
  haveI : IsTrans (AggRow String) (kpiDescRel k) :=
    ⟨fun _ _ _ h1 h2 => le_trans h2 h1⟩
  exact List.sorted_insertionSort (kpiDescRel k) (groupAgg Row.productName df)

/-- Claim C6: the top-10 chart shows at most ten products, and every
product it shows has a selected-KPI value at least that of every product
of the grouping it omits. -/
theorem top_10_spec (k : KPI) (df : List Row) (_h : df ≠ []) :
    (top_10 k df).length ≤ 10 ∧
    ∀ b ∈ product_grouped k df, b ∉ top_10 k df →
      ∀ a ∈ top_10 k df, kpiValue k b ≤ kpiValue k a := by
  constructor
  · rw [top_10, List.length_take]
    exact min_le_left _ _
  · intro b hb hbn a ha
    have hsplit := List.take_append_drop 10 (product_grouped k df)
    have hb2 : b ∈ (product_grouped k df).drop 10 := by
      rw [← hsplit] at hb
      rcases List.mem_append.mp hb with h1 | h1
      · exact absurd h1 hbn
      · exact h1
    have hpair :
        List.Pairwise (kpiDescRel k)
          ((product_grouped k df).take 10 ++ (product_grouped k df).drop 10) := by
      rw [hsplit]
      exact product_grouped_sorted k df
    exact (List.pairwise_append.mp hpair).2.2 a ha b hb2

/-- Claim C6, witness on a concrete one-row frame with the sales KPI. -/
theorem top_10_spec_witness :
    ([exRow] : List Row) ≠ [] ∧
    ((top_10 KPI.sales [exRow]).length ≤ 10 ∧
     ∀ b ∈ product_grouped KPI.sales [exRow], b ∉ top_10 KPI.sales [exRow] →
       ∀ a ∈ top_10 KPI.sales [exRow], kpiValue KPI.sales b ≤ kpiValue KPI.sales a) :=
  ⟨by decide, top_10_spec KPI.sales [exRow] (by decide)⟩

theorem min?_spec_of_ne_nil (l : List Int) (h : l ≠ []) :
    ∃ m, l.min? = some m ∧ m ∈ l ∧ ∀ b ∈ l, m ≤ b := by
  cases hm : l.min? with
  | none => exact absurd (List.min?_eq_none_iff.mp hm) h
  | some m =>
    haveI : Std.Antisymm (fun a b : Int => a ≤ b) :=
      ⟨fun h1 h2 => le_antisymm h1 h2⟩
    have hspec := (List.min?_eq_some_iff (fun a => le_refl a)
      (fun a b => min_choice a b) (fun _ _ _ => le_min_iff)).mp hm
    exact ⟨m, rfl, hspec.1, hspec.2⟩

theorem max?_spec_of_ne_nil (l : List Int) (h : l ≠ []) :
    ∃ m, l.max? = some m ∧ m ∈ l ∧ ∀ b ∈ l, b ≤ m := by
  cases hm : l.max? with
  | none => exact absurd (List.max?_eq_none_iff.mp hm) h
  | some m =>
    haveI : Std.Antisymm (fun a b : Int => a ≤ b) :=
      ⟨fun h1 h2 => le_antisymm h1 h2⟩
    have hspec := (List.max?_eq_some_iff (fun a => le_refl a)
      (fun a b => max_choice a b) (fun _ _ _ => max_le_iff)).mp hm
    exact ⟨m, rfl, hspec.1, hspec.2⟩

/-- Claim C9: the date widgets' bounds come from the full original frame
when the categorical filters left nothing and from the filtered frame
otherwise, and they are the least and greatest order dates of that
source frame. -/
theorem widget_date_bounds (df : List Row) (sr ss sc ssc : String)
    (h : df ≠ []) :
    ((df_filtered df sr ss sc ssc).isEmpty = true →
      widget_date_source df sr ss sc ssc = df) ∧
    ((df_filtered df sr ss sc ssc).isEmpty = false →
      widget_date_source df sr ss sc ssc = df_filtered df sr ss sc ssc) ∧
    ∃ m M : Int,
      min_date df sr ss sc ssc = some m ∧
      max_date df sr ss sc ssc = some M ∧
      m ∈ (widget_date_source df sr ss sc ssc).map Row.orderDate ∧
      (∀ d ∈ (widget_date_source df sr ss sc ssc).map Row.orderDate, m ≤ d) ∧
      M ∈ (widget_date_source df sr ss sc ssc).map Row.orderDate ∧
      (∀ d ∈ (widget_date_source df sr ss sc ssc).map Row.orderDate, d ≤ M) := by
  refine ⟨fun hE => by simp [widget_date_source, hE], fun hE => by
    simp [widget_date_source, hE], ?_⟩
  have hsrc : widget_date_source df sr ss sc ssc ≠ [] := by
    unfold widget_date_source
    split
    · exact h
    · next hne => exact fun hnil => hne (by simp [hnil])
  have hmap : (widget_date_source df sr ss sc ssc).map Row.orderDate ≠ [] :=
    fun hm => hsrc (List.map_eq_nil_iff.mp hm)
  obtain ⟨m, hm, hmmem, hmlb⟩ := min?_spec_of_ne_nil _ hmap
  obtain ⟨M, hM, hMmem, hMub⟩ := max?_spec_of_ne_nil _ hmap
  exact ⟨m, M, hm, hM, hmmem, hmlb, hMmem, hMub⟩

/-- Claim C9, witness on a concrete one-row frame with all-pass filters. -/
theorem widget_date_bounds_witness :
    ([exRow] : List Row) ≠ [] ∧
    (((df_filtered [exRow] "All" "All" "All" "All").isEmpty = true →
       widget_date_source [exRow] "All" "All" "All" "All" = [exRow]) ∧
     ((df_filtered [exRow] "All" "All" "All" "All").isEmpty = false →
       widget_date_source [exRow] "All" "All" "All" "All" =
         df_filtered [exRow] "All" "All" "All" "All") ∧
     ∃ m M : Int,
       min_date [exRow] "All" "All" "All" "All" = some m ∧
       max_date [exRow] "All" "All" "All" "All" = some M ∧
       m ∈ (widget_date_source [exRow] "All" "All" "All" "All").map Row.orderDate ∧
       (∀ d ∈ (widget_date_source [exRow] "All" "All" "All" "All").map
           Row.orderDate, m ≤ d) ∧
       M ∈ (widget_date_source [exRow] "All" "All" "All" "All").map Row.orderDate ∧
       (∀ d ∈ (widget_date_source [exRow] "All" "All" "All" "All").map
           Row.orderDate, d ≤ M)) :=
  ⟨by decide, widget_date_bounds [exRow] "All" "All" "All" "All" (by decide)⟩
